import Mathlib

/-!
Verification of the event-count-issue-reproducer program (src/main.go).

The program creates a fixed Deployment on a cluster, polls pod events
classifying each by its deprecated repeat counter, and tears the
Deployment down on a signal or on an API error.  The definitions below
are a shallow embedding of `main.go`: the event classifier (lines
121-135), the fixed deployment literal (lines 25-71), the teardown
routines `cleanupAndExit` and `deleteDeployment` (lines 143-157) and the
control flow of `main` (lines 73-141), with the external control-plane
calls supplied by an environment of oracles.
-/

/-- The subject reference of an event (`ev.Regarding` of events/v1). -/
structure Regarding where
  kind : String
  name : String
deriving DecidableEq, Repr

/-- Grouping metadata of an event (`ev.Series`); the program only tests
it against nil, the count field is carried for fidelity. -/
structure EventSeries where
  count : Int
deriving DecidableEq, Repr

/-- An events/v1 event as consumed by the program: subject reference,
deprecated repeat counter (int32 in Go, embedded as `Int`; the program
does no arithmetic on it) and optional series metadata (a nil pointer in
Go becomes `none`). -/
structure Event where
  regarding : Regarding
  deprecatedCount : Int
  series : Option EventSeries
deriving DecidableEq, Repr

/-- The classifier body of the inner event loop, main.go lines 121-135,
for one event.  Returns the exact strings written to stdout (a
`fmt.Println` argument gets a trailing newline appended).  Events whose
subject kind is not "Pod" are skipped (`continue`). -/
def classifyEvent (podName : String) (ev : Event) : List String :=
  if ev.regarding.kind ≠ "Pod" then []
  else if ev.deprecatedCount = 0 then
    let outputMsg := "Issue is occuring - Event count is 0 for pod " ++ podName ++ ". "
    let outputMsg := if ev.series.isNone then outputMsg ++ "Event series is also nil" else outputMsg
    [outputMsg ++ "\n"]
  else
    ["Issue is no longer occuring - Event count is " ++ toString ev.deprecatedCount ++
      "  for pod " ++ podName ++ " \n"]

/-- main.go line 25: the fixed deployment name. -/
def deploymentName : String := "event-count-issue-reproducer"

/-- A container port entry (`apiv1.ContainerPort`); the protocol constant
`apiv1.ProtocolTCP` is the string "TCP". -/
structure ContainerPort where
  name : String
  protocol : String
  containerPort : Int
deriving DecidableEq, Repr

/-- Resource requests and limits; quantities are kept as the literal
strings handed to `resource.MustParse`. -/
structure ResourceRequirements where
  requestsMemory : String
  requestsCPU : String
  limitsMemory : String
  limitsCPU : String
deriving DecidableEq, Repr

/-- A container of the pod template (`apiv1.Container`). -/
structure Container where
  name : String
  image : String
  ports : List ContainerPort
  resources : ResourceRequirements
deriving DecidableEq, Repr

/-- The pod template of the deployment spec. -/
structure PodTemplateSpec where
  labels : List (String × String)
  containers : List Container
deriving DecidableEq, Repr

/-- The deployment spec (`appsv1.DeploymentSpec`). -/
structure DeploymentSpec where
  replicas : Int
  matchLabels : List (String × String)
  template : PodTemplateSpec
deriving DecidableEq, Repr

/-- A deployment object (`appsv1.Deployment`): object meta name plus spec. -/
structure Deployment where
  name : String
  spec : DeploymentSpec
deriving DecidableEq, Repr

/- ------------------------------------------------------------------
Field selectors.  main.go line 110 builds the selector string
"regarding.name=" ++ pod.Name with fmt.Sprintf and parses it with the
external apimachinery fields package, then passes selector.String() as
the event-query filter (line 115).  The fields package is an external
collaborator, not part of this repository, so it is modelled from the
spec here.
------------------------------------------------------------------ -/

/-- main.go line 110: the field-selector string handed to the parser. -/
def selectorLiteral (podName : String) : String :=
  "regarding.name=" ++ podName

/-- The characters a field-selector value must escape: backslash, comma
and the equals sign.  A unit name is "valid" for claim C7 when it avoids
these and the bang character. -/
def selSpecialChars : List Char := ['\\', ',', '=']

/-- Modelled from the spec: one requirement of a parsed field selector of
the external fields package (the repository only exercises equality
terms; inequality terms are carried for fidelity of the term grammar
`regarding.name=<unitName>` given in the spec's interface contract). -/
inductive Requirement where
  | hasTerm (field value : String)
  | notHasTerm (field value : String)
deriving DecidableEq, Repr

/-- Modelled from the spec: splitting a selector string at the commas
separating its terms. -/
def splitOnComma : List Char → List (List Char)
  | [] => [[]]
  | c :: rest =>
    if c = ',' then [] :: splitOnComma rest
    else
      match splitOnComma rest with
      | [] => [[c]]
      | p :: ps => (c :: p) :: ps

/-- Modelled from the spec: splitting one term at the first operator
occurrence, trying the operators bang-equals, double-equals and equals at
each position, returning field, operator and raw value. -/
def splitTermL : List Char → Option (List Char × String × List Char)
  | [] => none
  | c :: rest =>
    if c = '!' ∧ rest.head? = some '=' then some ([], "!=", rest.tail)
    else if c = '=' then
      if rest.head? = some '=' then some ([], "==", rest.tail)
      else some ([], "=", rest)
    else (splitTermL rest).map (fun x => (c :: x.1, x.2.1, x.2.2))

/-- Modelled from the spec: undoing backslash escapes in a term's value;
a backslash must be followed by one of the escapable characters. -/
def unescapeL : List Char → Option (List Char)
  | [] => some []
  | c :: rest =>
    if c = '\\' then
      match rest with
      | [] => none
      | d :: rest2 =>
        if d ∈ selSpecialChars then (unescapeL rest2).map (fun l => d :: l) else none
    else (unescapeL rest).map (fun l => c :: l)

/-- Modelled from the spec: escaping a value for serialization, the
inverse of `unescapeL`. -/
def escapeL : List Char → List Char
  | [] => []
  | c :: rest =>
    if c ∈ selSpecialChars then '\\' :: c :: escapeL rest else c :: escapeL rest

/-- Modelled from the spec: parsing one nonempty selector term. -/
def parseTerm (t : List Char) : Except String Requirement :=
  match splitTermL t with
  | none => Except.error "invalid selector"
  | some (lhs, op, rhs) =>
    match unescapeL rhs with
    | none => Except.error "invalid escape sequence"
    | some v =>
      if op = "!=" then Except.ok (Requirement.notHasTerm (String.mk lhs) (String.mk v))
      else Except.ok (Requirement.hasTerm (String.mk lhs) (String.mk v))

/-- Modelled from the spec: insertion step of the lexicographic sort the
parser applies to the comma-separated terms. -/
def insertSorted (x : List Char) : List (List Char) → List (List Char)
  | [] => [x]
  | y :: ys => if String.mk x ≤ String.mk y then x :: y :: ys else y :: insertSorted x ys

/-- Modelled from the spec: sorting the comma-separated terms. -/
def sortParts (l : List (List Char)) : List (List Char) :=
  l.foldr insertSorted []

/-- Modelled from the spec: parsing the sorted terms in order, skipping
empty ones and failing on the first malformed one. -/
def parseTerms : List (List Char) → Except String (List Requirement)
  | [] => Except.ok []
  | part :: rest =>
    if part = [] then parseTerms rest
    else
      match parseTerm part with
      | Except.error e => Except.error e
      | Except.ok r =>
        match parseTerms rest with
        | Except.error e => Except.error e
        | Except.ok rs => Except.ok (r :: rs)

/-- Modelled from the spec: `fields.ParseSelector` of the external fields
package — split on commas, sort, parse each term. -/
def parseSelector (s : String) : Except String (List Requirement) :=
  parseTerms (sortParts (splitOnComma s.data))

/-- Modelled from the spec: serializing one requirement back to a term,
escaping the value. -/
def requirementString : Requirement → String
  | Requirement.hasTerm f v => f ++ "=" ++ String.mk (escapeL v.data)
  | Requirement.notHasTerm f v => f ++ "!=" ++ String.mk (escapeL v.data)

/-- Modelled from the spec: `selector.String()`, the comma-join of the
serialized requirements; this string is what main.go line 115 passes as
the event-query field selector. -/
def selectorString (reqs : List Requirement) : String :=
  String.intercalate "," (reqs.map requirementString)

/-- main.go lines 27-71: the fixed workload literal submitted by the
provisioning call. -/
def deployment : Deployment :=
  { name := deploymentName
    spec :=
      { replicas := 2
        matchLabels := [("app", "demo")]
        template :=
          { labels := [("app", "demo")]
            containers :=
              [{ name := "web"
                 image := "nginx:1.12"
                 ports := [{ name := "http", protocol := "TCP", containerPort := 80 }]
                 resources :=
                   { requestsMemory := "32Gi"
                     requestsCPU := "500m"
                     limitsMemory := "64Gi"
                     limitsCPU := "2000m" } }] } } }

/- ------------------------------------------------------------------
Control flow of main (lines 73-141), cleanupAndExit (143-146) and
deleteDeployment (148-157).  Control-plane calls are supplied by an
environment of oracles; a run produces the trace of observable actions
(stdout writes, API calls, sleeps, exits) together with an outcome.
Go semantics embedded faithfully: the error branches of main call
cleanupAndExit and then FALL THROUGH — cleanupAndExit contains no exit
statement — and client-go returns a zero-valued, non-nil result object
alongside an error, so a failed Create leaves an empty name for the
success print and failed List calls leave empty item slices for the
range loops that follow.
------------------------------------------------------------------ -/

/-- A pod as consumed by the poll loop: only its name is read. -/
structure Pod where
  name : String
deriving DecidableEq, Repr

/-- One observable action of a run. -/
inductive Act where
  | print (s : String)
  | createCall
  | listPodsCall
  | listEventsCall (selector : String)
  | deleteCall (name : String) (propagation : String)
  | sleepOneSecond
  | exitProcess (code : Nat)
deriving DecidableEq, Repr

/-- How a (fuel-bounded) run ends: normal exit, a Go panic, or fuel
running out while the infinite poll loop is still going. -/
inductive Outcome where
  | exited (code : Nat)
  | panicked (msg : String)
  | fuelExhausted
deriving DecidableEq, Repr

/-- The external control plane: results of the Create call, of the pod
List call per loop iteration, of the event List call per iteration and
serialized selector, and of each Delete call in invocation order. -/
structure Env where
  createResult : Except String String
  listPodsResult : Nat → Except String (List Pod)
  listEventsResult : Nat → String → Except String (List Event)
  deleteResult : Nat → Except String Unit

/-- A trace of observable actions. -/
abbrev Trace := List Act

/-- deleteDeployment, main.go lines 148-157: print, issue the Delete call
for the fixed name with foreground propagation; panic on error, print a
confirmation and return on success.  `d` is the index of this Delete
invocation; the returned option is the panic message, if any. -/
def deleteDeploymentRun (env : Env) (d : Nat) : Trace × Option String :=
  let pre := [Act.print "Deleting deployment...\n",
              Act.deleteCall deploymentName "Foreground"]
  match env.deleteResult d with
  | Except.error e => (pre, some e)
  | Except.ok _ => (pre ++ [Act.print "Deleted deployment.\n"], none)

/-- cleanupAndExit, main.go lines 143-146: run deleteDeployment, then
print "Exiting." and RETURN to the caller — the function contains no exit
call despite its name. -/
def cleanupAndExitRun (env : Env) (d : Nat) : Trace × Option String :=
  let (t, p) := deleteDeploymentRun env d
  match p with
  | some e => (t, some e)
  | none => (t ++ [Act.print "Exiting.\n"], none)

/-- The classifier applied to every event of one pod's query result,
main.go lines 121-135, as print actions. -/
def processEvents (podName : String) (events : List Event) : Trace :=
  (events.map (fun ev => (classifyEvent podName ev).map Act.print)).flatten

/-- The per-pod body of the poll loop, main.go lines 108-136: build and
parse the selector, query events, classify.  On a selector-parse error
the code prints, runs cleanupAndExit, and then dereferences the nil
selector (a runtime panic); on an event-query error it prints, runs
cleanupAndExit, and then ranges over the zero-valued empty event list.
Returns the trace, the panic message if any, and the updated delete-call
counter. -/
def processPod (env : Env) (i d : Nat) (pod : Pod) : Trace × Option String × Nat :=
  match parseSelector (selectorLiteral pod.name) with
  | Except.error e =>
    let (t, p) := cleanupAndExitRun env d
    let t := Act.print ("failed to parse field selector: " ++ e) :: t
    match p with
    | some pe => (t, some pe, d + 1)
    | none => (t, some "invalid memory address or nil pointer dereference", d + 1)
  | Except.ok sel =>
    let s := selectorString sel
    match env.listEventsResult i s with
    | Except.error e =>
      let (t, p) := cleanupAndExitRun env d
      (Act.listEventsCall s :: Act.print ("failed to get events: " ++ e) :: t, p, d + 1)
    | Except.ok evs =>
      (Act.listEventsCall s :: processEvents pod.name evs, none, d)

/-- The range loop over the listed pods, main.go lines 108-136. -/
def processPods (env : Env) (i : Nat) : Nat → List Pod → Trace × Option String × Nat
  | d, [] => ([], none, d)
  | d, pod :: rest =>
    let (t, p, d') := processPod env i d pod
    match p with
    | some e => (t, some e, d')
    | none =>
      let (t2, p2, d'') := processPods env i d' rest
      (t ++ t2, p2, d'')

/-- One iteration of the poll loop, main.go lines 100-138: list pods (on
error print, run cleanupAndExit, and continue over the zero-valued empty
pod list), process each pod, sleep one second. -/
def loopIter (env : Env) (i d : Nat) : Trace × Option String × Nat :=
  match env.listPodsResult i with
  | Except.error e =>
    let (t, p) := cleanupAndExitRun env d
    let t := Act.listPodsCall :: Act.print ("Error listing pods: " ++ e) :: t
    match p with
    | some pe => (t, some pe, d + 1)
    | none => (t ++ [Act.sleepOneSecond], none, d + 1)
  | Except.ok pods =>
    let (t, p, d') := processPods env i d pods
    match p with
    | some e => (Act.listPodsCall :: t, some e, d')
    | none => (Act.listPodsCall :: (t ++ [Act.sleepOneSecond]), none, d')

/-- The unbounded `for` loop of main, run with `fuel` iterations;
`i` is the iteration index and `d` the delete-call counter. -/
def loopRun (env : Env) : Nat → Nat → Nat → Trace × Outcome
  | 0, _, _ => ([], Outcome.fuelExhausted)
  | fuel + 1, i, d =>
    let (t, p, d') := loopIter env i d
    match p with
    | some e => (t, Outcome.panicked e)
    | none =>
      let (t2, o) := loopRun env fuel (i + 1) d'
      (t ++ t2, o)

/-- main, main.go lines 73-141, from the Create call onward: print and
create; on error print the error and run cleanupAndExit, after which
execution FALLS THROUGH to the success print (with the zero-valued empty
name) and into the poll loop. -/
def mainRun (env : Env) (fuel : Nat) : Trace × Outcome :=
  let pre := [Act.print "Creating deployment...\n", Act.createCall]
  match env.createResult with
  | Except.error e =>
    let (t, p) := cleanupAndExitRun env 0
    let t := pre ++ (Act.print ("Error creating deployment: " ++ e) :: t)
    match p with
    | some pe => (t, Outcome.panicked pe)
    | none =>
      let (t2, o) := loopRun env fuel 0 1
      (t ++ (Act.print "Created deployment \"\".\n" :: t2), o)
  | Except.ok name =>
    let (t2, o) := loopRun env fuel 0 0
    (pre ++ (Act.print ("Created deployment \"" ++ name ++ "\".\n") :: t2), o)

/-- The signal-handler goroutine body, main.go lines 93-97: on a signal,
run cleanupAndExit and then call os.Exit(0).  `d` is the delete-call
index at the time the signal fires. -/
def signalHandlerRun (env : Env) (d : Nat) : Trace × Outcome :=
  let (t, p) := cleanupAndExitRun env d
  match p with
  | some e => (t, Outcome.panicked e)
  | none => (t ++ [Act.exitProcess 0], Outcome.exited 0)

/- ------------------------------------------------------------------
Concrete environments exercising the terminal paths.
------------------------------------------------------------------ -/

/-- A control plane whose Create call fails (for instance, the name is
already in use) while the Delete call of the teardown succeeds — the
scenario of a name collision where a deployment of the fixed name
already exists on the cluster. -/
def envCreateCollision : Env :=
  { createResult := Except.error "already exists"
    listPodsResult := fun _ => Except.ok []
    listEventsResult := fun _ _ => Except.ok []
    deleteResult := fun _ => Except.ok () }

/-- A control plane where Create succeeds and every pod List call fails
(a persistent connectivity failure) while Delete calls succeed. -/
def envListError : Env :=
  { createResult := Except.ok "event-count-issue-reproducer"
    listPodsResult := fun _ => Except.error "connection refused"
    listEventsResult := fun _ _ => Except.ok []
    deleteResult := fun _ => Except.ok () }

/-- A control plane where Create succeeds, the pod List call fails only
on the first iteration (a transient connectivity failure) and Delete
calls succeed. -/
def envListErrorOnce : Env :=
  { createResult := Except.ok "event-count-issue-reproducer"
    listPodsResult := fun i => if i = 0 then Except.error "connection refused" else Except.ok []
    listEventsResult := fun _ _ => Except.ok []
    deleteResult := fun _ => Except.ok () }

/-- A control plane whose Delete call fails (for instance, the resource
is already gone). -/
def envDeleteFails : Env :=
  { createResult := Except.ok "event-count-issue-reproducer"
    listPodsResult := fun _ => Except.ok []
    listEventsResult := fun _ _ => Except.ok []
    deleteResult := fun _ => Except.error "deployments.apps \"event-count-issue-reproducer\" not found" }

/- ------------------------------------------------------------------
Theorems.
------------------------------------------------------------------ -/

/-- Claim C1: for every event whose subject kind is "Pod" and whose
repeat counter equals 0, the classifier emits the issue-occurring
diagnostic line naming the pod, and when the event's series metadata is
nil the series-is-nil detail is appended to that same line. -/
theorem classifier_zero_count (podName : String) (ev : Event)
    (hk : ev.regarding.kind = "Pod") (hc : ev.deprecatedCount = 0) :
    classifyEvent podName ev =
      [if ev.series.isNone
       then "Issue is occuring - Event count is 0 for pod " ++ podName ++
         ". Event series is also nil\n"
       else "Issue is occuring - Event count is 0 for pod " ++ podName ++ ". \n"] := by
  cases h : ev.series <;>
    simp [classifyEvent, hk, hc, h, String.append_assoc]

/-- Witness for C1: a Pod event with counter 0 and nil series produces
the issue-occurring line with the series detail appended. -/
theorem classifier_zero_count_witness :
    classifyEvent "mypod" ⟨⟨"Pod", "mypod"⟩, 0, none⟩ =
      ["Issue is occuring - Event count is 0 for pod mypod. Event series is also nil\n"] := by
  rw [classifier_zero_count "mypod" ⟨⟨"Pod", "mypod"⟩, 0, none⟩ rfl rfl]
  rfl

/-- Claim C5: for every event whose subject kind is "Pod" and whose
repeat counter is greater than 0, the classifier emits the
issue-not-occurring message carrying the literal counter value and the
pod name. -/
theorem classifier_positive_count (podName : String) (ev : Event)
    (hk : ev.regarding.kind = "Pod") (hc : 0 < ev.deprecatedCount) :
    classifyEvent podName ev =
      ["Issue is no longer occuring - Event count is " ++ toString ev.deprecatedCount ++
        "  for pod " ++ podName ++ " \n"] := by
  have hne : ev.deprecatedCount ≠ 0 := by omega
  simp [classifyEvent, hk, hne]

/-- Witness for C5: a Pod event with counter 5 produces the
issue-not-occurring line showing 5. -/
theorem classifier_positive_count_witness :
    classifyEvent "mypod" ⟨⟨"Pod", "mypod"⟩, 5, some ⟨5⟩⟩ =
      ["Issue is no longer occuring - Event count is 5  for pod mypod \n"] := by
  rw [classifier_positive_count "mypod" ⟨⟨"Pod", "mypod"⟩, 5, some ⟨5⟩⟩ rfl (by decide)]
  rfl

/-- Claim C6: an event whose subject kind is not "Pod" produces neither
classification message, for every counter value and series metadata. -/
theorem classifier_non_pod (podName : String) (ev : Event)
    (hk : ev.regarding.kind ≠ "Pod") :
    classifyEvent podName ev = [] := by
  simp [classifyEvent, hk]

/-- Witness for C6: a Deployment-subject event with counter 0 emits
nothing. -/
theorem classifier_non_pod_witness :
    classifyEvent "mypod" ⟨⟨"Deployment", "d1"⟩, 0, none⟩ = [] := by
  rw [classifier_non_pod "mypod" ⟨⟨"Deployment", "d1"⟩, 0, none⟩ (by decide)]

/-- Claim C10: for every event whose subject kind is "Pod" and whose
repeat counter is negative, the classifier takes the issue-not-occurring
branch and prints the negative counter value: the test is equality with
zero, so all nonzero counters land there. -/
theorem classifier_negative_count (podName : String) (ev : Event)
    (hk : ev.regarding.kind = "Pod") (hc : ev.deprecatedCount < 0) :
    classifyEvent podName ev =
      ["Issue is no longer occuring - Event count is " ++ toString ev.deprecatedCount ++
        "  for pod " ++ podName ++ " \n"] := by
  have hne : ev.deprecatedCount ≠ 0 := by omega
  simp [classifyEvent, hk, hne]

/-- Witness for C10: a Pod event with counter -3 produces the
issue-not-occurring line showing -3. -/
theorem classifier_negative_count_witness :
    classifyEvent "mypod" ⟨⟨"Pod", "mypod"⟩, -3, none⟩ =
      ["Issue is no longer occuring - Event count is -3  for pod mypod \n"] := by
  rw [classifier_negative_count "mypod" ⟨⟨"Pod", "mypod"⟩, -3, none⟩ rfl (by decide)]
  rfl

/-- Claim C8: the embedded workload specification is the fixed constant
the spec states — group name "event-count-issue-reproducer", 2 replicas,
a single container with image nginx:1.12 exposing TCP port 80 named
"http", requests of 500m CPU and 32Gi memory, limits of 2000m CPU and
64Gi memory. -/
theorem deployment_fixed_constant :
    deploymentName = "event-count-issue-reproducer" ∧
    deployment.name = deploymentName ∧
    deployment.spec.replicas = 2 ∧
    deployment.spec.template.containers =
      [{ name := "web"
         image := "nginx:1.12"
         ports := [{ name := "http", protocol := "TCP", containerPort := 80 }]
         resources := { requestsMemory := "32Gi", requestsCPU := "500m",
                        limitsMemory := "64Gi", limitsCPU := "2000m" } }] :=
  ⟨rfl, rfl, rfl, rfl⟩

/-- Claim C2 (code bug): in the name-collision scenario — Create fails,
the teardown Delete succeeds — main prints the error and runs
cleanupAndExit, but then FALLS THROUGH: after the "Exiting." print it
prints the success line (with the zero-valued empty name from client-go)
and enters the poll loop instead of exiting.  cleanupAndExit contains no
exit call despite its name, contradicting the claimed "then exits,
performing no further work after teardown returns". -/
theorem create_error_falls_through :
    mainRun envCreateCollision 1 =
      ([Act.print "Creating deployment...\n",
        Act.createCall,
        Act.print "Error creating deployment: already exists",
        Act.print "Deleting deployment...\n",
        Act.deleteCall "event-count-issue-reproducer" "Foreground",
        Act.print "Deleted deployment.\n",
        Act.print "Exiting.\n",
        Act.print "Created deployment \"\".\n",
        Act.listPodsCall,
        Act.sleepOneSecond],
       Outcome.fuelExhausted) := rfl

/-- Claim C3 (code bug): with a persistent pod-listing error, each
iteration reports the error and runs cleanupAndExit, but then the loop
body CONTINUES (the sleep statement runs) and a later iteration runs
too, invoking teardown again — contradicting the claimed "no subsequent
statement of the loop body or later iteration runs after such an
error". -/
theorem list_error_falls_through :
    mainRun envListError 2 =
      ([Act.print "Creating deployment...\n",
        Act.createCall,
        Act.print "Created deployment \"event-count-issue-reproducer\".\n",
        Act.listPodsCall,
        Act.print "Error listing pods: connection refused",
        Act.print "Deleting deployment...\n",
        Act.deleteCall "event-count-issue-reproducer" "Foreground",
        Act.print "Deleted deployment.\n",
        Act.print "Exiting.\n",
        Act.sleepOneSecond,
        Act.listPodsCall,
        Act.print "Error listing pods: connection refused",
        Act.print "Deleting deployment...\n",
        Act.deleteCall "event-count-issue-reproducer" "Foreground",
        Act.print "Deleted deployment.\n",
        Act.print "Exiting.\n",
        Act.sleepOneSecond],
       Outcome.fuelExhausted) := rfl

/-- Claim C4 (code bug): the teardown routine does delete the workload
by its fixed name with foreground propagation, panics on a deletion
error with no retry, and on success prints a confirmation and returns to
its caller — but the caller does NOT then terminate the process on the
error path: after a transient listing error the run continues past the
"Exiting." print into further loop iterations, because cleanupAndExit
has no exit statement. -/
theorem teardown_returns_caller_continues :
    deleteDeploymentRun envListErrorOnce 0 =
      ([Act.print "Deleting deployment...\n",
        Act.deleteCall "event-count-issue-reproducer" "Foreground",
        Act.print "Deleted deployment.\n"], none) ∧
    cleanupAndExitRun envDeleteFails 0 =
      ([Act.print "Deleting deployment...\n",
        Act.deleteCall "event-count-issue-reproducer" "Foreground"],
       some "deployments.apps \"event-count-issue-reproducer\" not found") ∧
    mainRun envListErrorOnce 2 =
      ([Act.print "Creating deployment...\n",
        Act.createCall,
        Act.print "Created deployment \"event-count-issue-reproducer\".\n",
        Act.listPodsCall,
        Act.print "Error listing pods: connection refused",
        Act.print "Deleting deployment...\n",
        Act.deleteCall "event-count-issue-reproducer" "Foreground",
        Act.print "Deleted deployment.\n",
        Act.print "Exiting.\n",
        Act.sleepOneSecond,
        Act.listPodsCall,
        Act.sleepOneSecond],
       Outcome.fuelExhausted) :=
  ⟨rfl, rfl, rfl⟩

/-- Claim C9 (code bug): on the terminal path begun by the first
unrecoverable poll-loop error (a persistent listing failure, no signal
race involved), teardown is invoked twice within two iterations — not
exactly once — and the process is still running; the signal path, by
contrast, does invoke teardown exactly once before exiting with
status 0. -/
theorem teardown_not_exactly_once :
    ((mainRun envListError 2).1.countP fun a =>
        match a with
        | Act.deleteCall _ _ => true
        | _ => false) = 2 ∧
    (mainRun envListError 2).2 = Outcome.fuelExhausted ∧
    signalHandlerRun envListError 0 =
      ([Act.print "Deleting deployment...\n",
        Act.deleteCall "event-count-issue-reproducer" "Foreground",
        Act.print "Deleted deployment.\n",
        Act.print "Exiting.\n",
        Act.exitProcess 0],
       Outcome.exited 0) :=
  ⟨rfl, rfl, rfl⟩
theorem splitOnComma_no_comma : ∀ l : List Char, (∀ c ∈ l, c ≠ ',') → splitOnComma l = [l]
  | [], _ => rfl
  | c :: rest, h => by
    have hc : c ≠ ',' := h c (List.mem_cons_self c rest)
    have ih := splitOnComma_no_comma rest (fun d hd => h d (List.mem_cons_of_mem c hd))
    simp [splitOnComma, hc, ih]

theorem splitTermL_after_clean : ∀ (pre rest : List Char),
    (∀ c ∈ pre, c ≠ '!' ∧ c ≠ '=') → rest.head? ≠ some '=' →
    splitTermL (pre ++ '=' :: rest) = some (pre, "=", rest)
  | [], rest, _, hr => by
    simp [splitTermL, hr]
  | c :: pre, rest, h, hr => by
    have hc := h c (List.mem_cons_self c pre)
    have ih := splitTermL_after_clean pre rest (fun d hd => h d (List.mem_cons_of_mem c hd)) hr
    simp [splitTermL, hc.1, hc.2, ih]

theorem unescapeL_no_backslash : ∀ l : List Char, (∀ c ∈ l, c ≠ '\\') → unescapeL l = some l
  | [], _ => rfl
  | c :: rest, h => by
    have hc : c ≠ '\\' := h c (List.mem_cons_self c rest)
    have ih := unescapeL_no_backslash rest (fun d hd => h d (List.mem_cons_of_mem c hd))
    rw [unescapeL.eq_def]
    simp only [if_neg hc, ih]
    rfl

theorem escapeL_clean : ∀ l : List Char, (∀ c ∈ l, c ∉ selSpecialChars) → escapeL l = l
  | [], _ => rfl
  | c :: rest, h => by
    have hc : c ∉ selSpecialChars := h c (List.mem_cons_self c rest)
    have ih := escapeL_clean rest (fun d hd => h d (List.mem_cons_of_mem c hd))
    simp [escapeL, hc, ih]

/-- Claim C7: for every unit name containing only valid field-selector
characters (no comma, equals sign, bang or backslash), parsing the built
string "regarding.name=" followed by the name yields the single equality
requirement on that name, and re-serializing it yields exactly the same
string — the string passed as the event-query field selector. -/
theorem selector_roundtrip (podName : String)
    (h : ∀ c ∈ podName.data, c ≠ ',' ∧ c ≠ '=' ∧ c ≠ '!' ∧ c ≠ '\\') :
    parseSelector (selectorLiteral podName) =
      Except.ok [Requirement.hasTerm "regarding.name" podName] ∧
    selectorString [Requirement.hasTerm "regarding.name" podName] =
      selectorLiteral podName := by
  have h1 : ("regarding.name=" : String).data = "regarding.name".data ++ ['='] := by decide
  have hdata : (selectorLiteral podName).data =
      "regarding.name".data ++ '=' :: podName.data := by
    show ("regarding.name=" ++ podName).data = _
    rw [String.data_append, h1, List.append_assoc]
    rfl
  have hfield : ∀ c ∈ "regarding.name".data, c ≠ ',' := by decide
  have hfield2 : ∀ c ∈ "regarding.name".data, c ≠ '!' ∧ c ≠ '=' := by decide
  have hnc : ∀ c ∈ "regarding.name".data ++ '=' :: podName.data, c ≠ ',' := by
    intro c hcm
    rcases List.mem_append.mp hcm with hl | hr
    · exact hfield c hl
    · rcases List.mem_cons.mp hr with rfl | hmem
      · decide
      · exact (h c hmem).1
  have hne : "regarding.name".data ++ '=' :: podName.data ≠ [] := by
    simp
  have hhead : podName.data.head? ≠ some '=' := by
    cases hd : podName.data with
    | nil => simp
    | cons a as =>
      have ha := (h a (by rw [hd]; exact List.mem_cons_self a as)).2.1
      simp [ha]
  have hsplit := splitTermL_after_clean "regarding.name".data podName.data hfield2 hhead
  have hun := unescapeL_no_backslash podName.data (fun c hc => (h c hc).2.2.2)
  have hterm : parseTerm ("regarding.name".data ++ '=' :: podName.data) =
      Except.ok (Requirement.hasTerm "regarding.name" podName) := by
    unfold parseTerm
    simp only [hsplit, hun]
    rfl
  constructor
  · unfold parseSelector
    rw [hdata, splitOnComma_no_comma _ hnc]
    have hsp : sortParts ["regarding.name".data ++ '=' :: podName.data] =
        ["regarding.name".data ++ '=' :: podName.data] := rfl
    rw [hsp]
    simp only [parseTerms, if_neg hne, hterm]
  · show String.intercalate "," [_] = _
    have hesc : escapeL podName.data = podName.data := by
      apply escapeL_clean
      intro c hc
      have hcc := h c hc
      simp [selSpecialChars]
      exact ⟨hcc.2.2.2, hcc.1, hcc.2.1⟩
    show "regarding.name" ++ "=" ++ String.mk (escapeL podName.data) = _
    rw [hesc]
    rfl

/-- Witness for C7: a realistic generated pod name round-trips through
selector parsing and serialization unchanged. -/
theorem selector_roundtrip_witness :
    parseSelector (selectorLiteral "event-count-issue-reproducer-5d8f6c9b7-x2vqz") =
      Except.ok [Requirement.hasTerm "regarding.name"
        "event-count-issue-reproducer-5d8f6c9b7-x2vqz"] ∧
    selectorString [Requirement.hasTerm "regarding.name"
        "event-count-issue-reproducer-5d8f6c9b7-x2vqz"] =
      selectorLiteral "event-count-issue-reproducer-5d8f6c9b7-x2vqz" :=
  selector_roundtrip "event-count-issue-reproducer-5d8f6c9b7-x2vqz" (by decide)
